import Mathlib

/-!
Shallow embedding of threepp's render-list construction/sorting engine
(`src/threepp/renderers/gl/GLRenderLists.cpp`) and GPU texture resource
manager (`src/threepp/renderers/gl/GLTextures.cpp`), together with proofs
about the behaviour the specification describes.

Modelling conventions:
* C++ `std::shared_ptr<RenderItem>` aliasing is modelled by keeping the pool
  as a `List RenderItem` and letting the `opaque`/`transparent` buckets hold
  indices into that pool (a pointer is identified with its pool slot).
* `float z` is only ever compared (`!=`, `>`), never computed with, so it is
  modelled as `ℚ` (NaN-free totally ordered values).
* `std::stable_sort` is modelled as insertion sort (`List.insertionSort`),
  the canonical stable sort: for a strict-weak-order comparator the stable
  sorted permutation is unique, so any stable sort is a faithful model.
* Machine integers carry no overflow-relevant arithmetic here, so `int` is
  `Int` and unsigned counters are `Nat`.
-/

namespace Threepp

/-- A compiled shader program; only its identity is relevant here
(`GLProgram::id`). -/
structure ShaderProgram where
  id : Int
deriving DecidableEq, Repr

/-- The slice of `Material` the render list reads: identity (`id`),
stable `uuid` used to key the material-properties table, and the
`transparent` flag. -/
structure Material where
  id : Int
  uuid : Nat
  transparent : Bool
deriving DecidableEq, Repr

/-- The slice of `Object3D` the render list reads: `id` (an unsigned
integer in the source, cast to `int` when stored) and `renderOrder`. -/
structure Object3D where
  id : Nat
  renderOrder : Int
deriving DecidableEq, Repr

/-- `threepp::gl::RenderItem`.  Pointer members are `Option` values:
`none` is the null pointer written by `finish()`.  `object` and `geometry`
are only stored/cleared, never dereferenced, so bare identities suffice. -/
structure RenderItem where
  id : Int
  object : Option Nat
  geometry : Option Nat
  material : Option Material
  program : Option ShaderProgram
  groupOrder : Int
  renderOrder : Int
  z : ℚ
  group : Option Nat
deriving DecidableEq, Repr

instance : Inhabited RenderItem :=
  ⟨{ id := 0, object := none, geometry := none, material := none,
     program := none, groupOrder := 0, renderOrder := 0, z := 0, group := none }⟩

/-- `a->material->id`.  The source dereferences the material pointer
unconditionally; on a cleared item that is undefined behaviour, modelled
here by the default id `0` (no claim exercises that case). -/
def matId (r : RenderItem) : Int :=
  (r.material.map Material.id).getD 0

/-- `a->program->id` guard: the comparator compares program ids only when
both pointers are non-null and the ids differ. -/
def progIdsDiffer (a b : RenderItem) : Bool :=
  match a.program, b.program with
  | some p, some q => p.id ≠ q.id
  | _, _ => false

/-- `b->program->id > a->program->id` (only evaluated when both non-null). -/
def progIdLt (a b : RenderItem) : Bool :=
  decide ((b.program.map ShaderProgram.id).getD 0 > (a.program.map ShaderProgram.id).getD 0)

/-- The anonymous comparator `painterSortStable` from GLRenderLists.cpp. -/
def painterSortStable (a b : RenderItem) : Bool :=
  if a.groupOrder ≠ b.groupOrder then decide (b.groupOrder > a.groupOrder)
  else if a.renderOrder ≠ b.renderOrder then decide (b.renderOrder > a.renderOrder)
  else if progIdsDiffer a b then progIdLt a b
  else if matId a ≠ matId b then decide (matId b > matId a)
  else if a.z ≠ b.z then decide (b.z > a.z)
  else decide (b.id > a.id)

/-- The anonymous comparator `reversePainterSortStable` from
GLRenderLists.cpp.  Its body in the source is identical to
`painterSortStable` — including the direction of the `z` comparison. -/
def reversePainterSortStable (a b : RenderItem) : Bool :=
  if a.groupOrder ≠ b.groupOrder then decide (b.groupOrder > a.groupOrder)
  else if a.renderOrder ≠ b.renderOrder then decide (b.renderOrder > a.renderOrder)
  else if progIdsDiffer a b then progIdLt a b
  else if matId a ≠ matId b then decide (matId b > matId a)
  else if a.z ≠ b.z then decide (b.z > a.z)
  else decide (b.id > a.id)

/-- `threepp::gl::GLRenderList`'s state: the item pool `renderItems`, the
high-water mark `renderItemsIndex`, and the two buckets of shared
references into the pool (modelled as pool indices).  The source names the
first bucket `opaque`; that is a Lean keyword, hence `opaques`. -/
structure GLRenderList where
  renderItemsIndex : Nat
  renderItems : List RenderItem
  opaques : List Nat
  transparent : List Nat
deriving DecidableEq, Repr

/-- `properties.materialProperties.get(material->uuid).program`: the
per-material GPU-linkage lookup the render list reads (owned by
`GLProperties`, a collaborator). -/
def MaterialPrograms : Type := Nat → Option ShaderProgram

/-- `GLRenderList::init()` — verbatim from the source: it resets the
high-water mark, and clears `renderItems` (the pool!) as well as both
buckets. -/
def GLRenderList.init (_s : GLRenderList) : GLRenderList :=
  { renderItemsIndex := 0, renderItems := [], opaques := [], transparent := [] }

/-- Pool slot access (`renderItems.at(i)`); all uses are guarded by
`i < renderItems.size()`. -/
def itemAt (pool : List RenderItem) (i : Nat) : RenderItem :=
  pool.getD i default

/-- The arguments of one `push`/`unshift`/`getNextRenderItem` call. -/
structure PushReq where
  object : Object3D
  geometry : Option Nat
  material : Material
  groupOrder : Int
  z : ℚ
  group : Option Nat

/-- The `RenderItem` field values `getNextRenderItem` writes: `id` from
the object's identity (cast to `int`), `renderOrder` from the object's own
field, `program` from the material-properties lookup. -/
def builtItem (props : MaterialPrograms) (r : PushReq) : RenderItem :=
  { id := (r.object.id : Int), object := some r.object.id,
    geometry := r.geometry, material := some r.material,
    program := props r.material.uuid,
    groupOrder := r.groupOrder, renderOrder := r.object.renderOrder,
    z := r.z, group := r.group }

/-- `GLRenderList::getNextRenderItem`: append a freshly constructed item
when the high-water mark has reached the pool size, else overwrite the slot
at the mark — with the source's guard `if (materialProperties.program)`
before overwriting the `program` field.  Returns the new state and the
slot index of the item (the `shared_ptr` returned by the source). -/
def getNextRenderItem (props : MaterialPrograms) (s : GLRenderList) (r : PushReq) :
    GLRenderList × Nat :=
  if s.renderItemsIndex ≥ s.renderItems.length then
    ({ s with renderItems := s.renderItems ++ [builtItem props r],
              renderItemsIndex := s.renderItemsIndex + 1 },
     s.renderItems.length)
  else
    -- slot reuse overwrites every field, except that `program` is only
    -- overwritten under the source's `if (materialProperties.program)` guard
    let old := itemAt s.renderItems s.renderItemsIndex
    let item : RenderItem :=
      { builtItem props r with
          program := match props r.material.uuid with
                     | some p => some p
                     | none => old.program }
    ({ s with renderItems := s.renderItems.set s.renderItemsIndex item,
              renderItemsIndex := s.renderItemsIndex + 1 },
     s.renderItemsIndex)

/-- `GLRenderList::push`: obtain an item and append its reference to
`transparent` if the material is flagged transparent, else to `opaque`. -/
def GLRenderList.push (props : MaterialPrograms) (s : GLRenderList) (r : PushReq) :
    GLRenderList :=
  let (s₁, i) := getNextRenderItem props s r
  if r.material.transparent then
    { s₁ with transparent := s₁.transparent ++ [i] }
  else
    { s₁ with opaques := s₁.opaques ++ [i] }

/-- `GLRenderList::unshift`: same as `push` but prepends. -/
def GLRenderList.unshift (props : MaterialPrograms) (s : GLRenderList) (r : PushReq) :
    GLRenderList :=
  let (s₁, i) := getNextRenderItem props s r
  if r.material.transparent then
    { s₁ with transparent := i :: s₁.transparent }
  else
    { s₁ with opaques := i :: s₁.opaques }

/-- The non-strict order induced on pool indices by a strict comparator:
`i ≼ j` iff the comparator does not place item `j` strictly before item
`i`.  Stable-sorting by the strict comparator is insertion sort by this
relation. -/
def bucketLE (pool : List RenderItem) (comp : RenderItem → RenderItem → Bool)
    (i j : Nat) : Prop :=
  comp (itemAt pool j) (itemAt pool i) = false

instance (pool : List RenderItem) (comp : RenderItem → RenderItem → Bool) :
    DecidableRel (bucketLE pool comp) := fun _ _ => instDecidableEqBool _ _

/-- One `std::stable_sort(bucket.begin(), bucket.end(), comp)` call, with
the source's `size() > 1` guard. -/
def sortBucket (pool : List RenderItem) (comp : RenderItem → RenderItem → Bool)
    (bucket : List Nat) : List Nat :=
  if bucket.length > 1 then bucket.insertionSort (bucketLE pool comp) else bucket

/-- `GLRenderList::sort()`. -/
def GLRenderList.sort (s : GLRenderList) : GLRenderList :=
  { s with opaques := sortBucket s.renderItems painterSortStable s.opaques,
           transparent := sortBucket s.renderItems reversePainterSortStable s.transparent }

/-- The clearing assignments of `GLRenderList::finish()`'s loop body. -/
def clearItem (r : RenderItem) : RenderItem :=
  { r with id := -1, object := none, geometry := none, material := none,
           program := none, group := none }

/-- The loop of `GLRenderList::finish()`: walk from index `i` to the pool
end, stopping at the first item with `id == -1`, clearing every other item
visited.  The loop bound `il = renderItems.size()` is captured once before
the loop and `set` preserves the length, so running it on `length - i`
fuel is exact. -/
def finishLoop : Nat → List RenderItem → Nat → List RenderItem
  | 0, pool, _ => pool
  | fuel + 1, pool, i =>
    if h : i < pool.length then
      let r := pool.get ⟨i, h⟩
      if r.id = -1 then pool
      else finishLoop fuel (pool.set i (clearItem r)) (i + 1)
    else pool

/-- The loop of `GLRenderList::finish()` from index `i`. -/
def finishFrom (pool : List RenderItem) (i : Nat) : List RenderItem :=
  finishLoop (pool.length - i) pool i

/-- `GLRenderList::finish()`. -/
def GLRenderList.finish (s : GLRenderList) : GLRenderList :=
  { s with renderItems := finishFrom s.renderItems s.renderItemsIndex }

/-- A sequence of `push` calls, in order. -/
def pushMany (props : MaterialPrograms) (s : GLRenderList) : List PushReq → GLRenderList
  | [] => s
  | r :: rs => pushMany props (GLRenderList.push props s r) rs

/-- One frame-building operation on a render list. -/
inductive RLOp where
  | push (r : PushReq)
  | unshift (r : PushReq)
  | sort
  | finish

/-- Interpret one operation. -/
def applyOp (props : MaterialPrograms) (s : GLRenderList) : RLOp → GLRenderList
  | .push r => GLRenderList.push props s r
  | .unshift r => GLRenderList.unshift props s r
  | .sort => GLRenderList.sort s
  | .finish => GLRenderList.finish s

/-- Interpret a sequence of operations, in order. -/
def applyOps (props : MaterialPrograms) (s : GLRenderList) : List RLOp → GLRenderList
  | [] => s
  | o :: os => applyOps props (applyOp props s o) os

/-- The complete sort key the comparators inspect, in tie-break order:
groupOrder, renderOrder, program identity, material identity, z, item id. -/
def fullKey (r : RenderItem) : Int × Int × Option Int × Int × ℚ × Int :=
  (r.groupOrder, r.renderOrder, r.program.map ShaderProgram.id, matId r, r.z, r.id)

/-- The z values of a bucket's items, in bucket order. -/
def bucketZs (pool : List RenderItem) (bucket : List Nat) : List ℚ :=
  bucket.map (fun i => (itemAt pool i).z)

/-! ## GLTextures (GLTextures.cpp)

OpenGL enum values (from the GL headers) and threepp texture-constant
values, as plain naturals. -/

def GL_TEXTURE0 : Nat := 33984
def GL_TEXTURE_2D : Nat := 3553
def GL_RED : Nat := 6403
def GL_RGB : Nat := 6407
def GL_RGBA : Nat := 6408
def GL_FLOAT : Nat := 5126
def GL_HALF_FLOAT : Nat := 5131
def GL_UNSIGNED_BYTE : Nat := 5121
def GL_R8 : Nat := 33321
def GL_R16F : Nat := 33325
def GL_R32F : Nat := 33326
def GL_RGB8 : Nat := 32849
def GL_RGB16F : Nat := 34843
def GL_RGB32F : Nat := 34837
def GL_RGBA8 : Nat := 32856
def GL_RGBA16F : Nat := 34842
def GL_RGBA32F : Nat := 34836
def GL_REPEAT : Nat := 10497
def GL_CLAMP_TO_EDGE : Nat := 33071
def GL_MIRRORED_REPEAT : Nat := 33648
def GL_NEAREST : Nat := 9728
def GL_LINEAR : Nat := 9729
def GL_NEAREST_MIPMAP_NEAREST : Nat := 9984
def GL_LINEAR_MIPMAP_NEAREST : Nat := 9985
def GL_NEAREST_MIPMAP_LINEAR : Nat := 9986
def GL_LINEAR_MIPMAP_LINEAR : Nat := 9987
def GL_TEXTURE_WRAP_S : Nat := 10242
def GL_TEXTURE_WRAP_T : Nat := 10243
def GL_TEXTURE_MAG_FILTER : Nat := 10240
def GL_TEXTURE_MIN_FILTER : Nat := 10241

/-- threepp texture constants (three.js-compatible values). -/
def RepeatWrapping : Nat := 1000
def ClampToEdgeWrapping : Nat := 1001
def MirroredRepeatWrapping : Nat := 1002
def NearestFilter : Nat := 1003
def NearestMipmapNearestFilter : Nat := 1004
def NearestMipmapLinearFilter : Nat := 1005
def LinearFilter : Nat := 1006
def LinearMipmapNearestFilter : Nat := 1007
def LinearMipmapLinearFilter : Nat := 1008
def UnsignedByteType : Nat := 1009
def FloatType : Nat := 1015
def HalfFloatType : Nat := 1016
def RGBFormat : Nat := 1022
def RGBAFormat : Nat := 1023
def RedFormat : Nat := 1028

/-- An image payload: only the dimensions matter to this core. -/
structure Image where
  width : Nat
  height : Nat
deriving DecidableEq, Repr

/-- The slice of `threepp::Texture` the manager reads.  `version` is the
content-version counter returned by `texture.version()`; `onUpdate` records
whether a custom update callback is installed. -/
structure Texture where
  uuid : Nat
  version : Nat
  image : Option Image
  mipmaps : List Image
  format : Nat
  type : Nat
  wrapS : Nat
  wrapT : Nat
  magFilter : Nat
  minFilter : Nat
  generateMipmaps : Bool
  unpackAlignment : Nat
  onUpdate : Bool
deriving DecidableEq, Repr

/-- `threepp::gl::TextureProperties` — the per-identity GPU state record. -/
structure TextureProperties where
  glTexture : Nat
  glInit : Bool
  version : Nat
  maxMipLevel : Int
deriving DecidableEq, Repr

/-- Modelled from the spec: the default-constructed `TextureProperties`
entry that `GLProperties::textureProperties.get` inserts for an unseen
identity (the `GLProperties` header is not part of the sources examined).
Per the spec invariant "`glInit == true` iff a GPU handle has been
allocated", a fresh entry has `glInit = false` and no meaningful handle or
version. -/
def defaultTP : TextureProperties :=
  { glTexture := 0, glInit := false, version := 0, maxMipLevel := 0 }

/-- Association-list lookup in the texture resource table. -/
def lookupTP (table : List (Nat × TextureProperties)) (uuid : Nat) :
    Option TextureProperties :=
  (table.find? (fun e => e.1 = uuid)).map Prod.snd

/-- `properties.textureProperties.get(uuid)`: return the entry, inserting a
default one first when the identity is unseen. -/
def getTP (table : List (Nat × TextureProperties)) (uuid : Nat) :
    TextureProperties × List (Nat × TextureProperties) :=
  match lookupTP table uuid with
  | some tp => (tp, table)
  | none => (defaultTP, (uuid, defaultTP) :: table)

/-- Write back through the reference obtained by `get`. -/
def setTP (table : List (Nat × TextureProperties)) (uuid : Nat)
    (tp : TextureProperties) : List (Nat × TextureProperties) :=
  table.map (fun e => if e.1 = uuid then (uuid, tp) else e)

/-- `properties.textureProperties.remove(uuid)`. -/
def removeTP (table : List (Nat × TextureProperties)) (uuid : Nat) :
    List (Nat × TextureProperties) :=
  table.filter (fun e => e.1 ≠ uuid)

/-- The observable GL/diagnostic actions a texture-manager call performs,
in order. -/
inductive GLAction where
  | genTexture (handle : Nat)
  | deleteTexture (handle : Nat)
  | activeTexture (unit : Nat)
  | bindTexture (target : Nat) (handle : Nat)
  | pixelStorei (alignment : Nat)
  | texParameteri (target : Nat) (pname : Nat) (value : Nat)
  | texImage2D (target : Nat) (level : Nat) (internalFormat : Nat)
      (width : Nat) (height : Nat) (format : Nat) (type : Nat)
  | generateMipmap (target : Nat)
  | diagnostic (msg : String)
  | onUpdateCall (uuid : Nat)
deriving DecidableEq, Repr

/-- Is the action a `texImage2D` upload? -/
def GLAction.isTexImage : GLAction → Bool
  | .texImage2D _ _ _ _ _ _ _ => true
  | _ => false

/-- `textureNeedsGenerateMipmaps` (anonymous namespace of GLTextures.cpp). -/
def textureNeedsGenerateMipmaps (t : Texture) : Bool :=
  t.generateMipmaps && t.minFilter ≠ NearestFilter && t.minFilter ≠ LinearFilter

/-- Modelled from the spec: `threepp::gl::convert` (GLUtils.hpp, not among
the sources examined) — the "fixed lookup" deriving the GL pixel format /
component type from the abstract texture format/type enum. -/
def convert (p : Nat) : Nat :=
  if p = UnsignedByteType then GL_UNSIGNED_BYTE
  else if p = FloatType then GL_FLOAT
  else if p = HalfFloatType then GL_HALF_FLOAT
  else if p = RGBFormat then GL_RGB
  else if p = RGBAFormat then GL_RGBA
  else if p = RedFormat then GL_RED
  else p

/-- `wrappingToGL` — an `unordered_map`; `operator[]` on an unmapped key
default-constructs `0`. -/
def wrappingToGL (w : Nat) : Nat :=
  if w = RepeatWrapping then GL_REPEAT
  else if w = ClampToEdgeWrapping then GL_CLAMP_TO_EDGE
  else if w = MirroredRepeatWrapping then GL_MIRRORED_REPEAT
  else 0

/-- `filterToGL` — an `unordered_map`; `operator[]` on an unmapped key
default-constructs `0`. -/
def filterToGL (f : Nat) : Nat :=
  if f = NearestFilter then GL_NEAREST
  else if f = NearestMipmapNearestFilter then GL_NEAREST_MIPMAP_NEAREST
  else if f = NearestMipmapLinearFilter then GL_NEAREST_MIPMAP_LINEAR
  else if f = LinearFilter then GL_LINEAR
  else if f = LinearMipmapNearestFilter then GL_LINEAR_MIPMAP_NEAREST
  else if f = LinearMipmapLinearFilter then GL_LINEAR_MIPMAP_LINEAR
  else 0

/-- The `glFormat == GL_RED` block of `getInternalFormat`: three sequential
(non-exclusive in the source, but mutually exclusive in effect) `if`
assignments. -/
def internalFormatRed (glType : Nat) (cur : Nat) : Nat :=
  let c := if glType = GL_FLOAT then GL_R32F else cur
  let c := if glType = GL_HALF_FLOAT then GL_R16F else c
  if glType = GL_UNSIGNED_BYTE then GL_R8 else c

/-- The `glFormat == GL_RGB` block of `getInternalFormat`. -/
def internalFormatRgb (glType : Nat) (cur : Nat) : Nat :=
  let c := if glType = GL_FLOAT then GL_RGB32F else cur
  let c := if glType = GL_HALF_FLOAT then GL_RGB16F else c
  if glType = GL_UNSIGNED_BYTE then GL_RGB8 else c

/-- The `glFormat == GL_RGBA` block of `getInternalFormat`. -/
def internalFormatRgba (glType : Nat) (cur : Nat) : Nat :=
  let c := if glType = GL_FLOAT then GL_RGBA32F else cur
  let c := if glType = GL_HALF_FLOAT then GL_RGBA16F else c
  if glType = GL_UNSIGNED_BYTE then GL_RGBA8 else c

/-- `getInternalFormat` (anonymous namespace of GLTextures.cpp): start from
`glFormat` and run the three format blocks in sequence. -/
def getInternalFormat (glFormat : Nat) (glType : Nat) : Nat :=
  let internalFormat := glFormat
  let internalFormat :=
    if glFormat = GL_RED then internalFormatRed glType internalFormat else internalFormat
  let internalFormat :=
    if glFormat = GL_RGB then internalFormatRgb glType internalFormat else internalFormat
  if glFormat = GL_RGBA then internalFormatRgba glType internalFormat else internalFormat

/-- `threepp::gl::GLTextures`'s observable state: the texture resource
table, the live-texture counter `info.memory.textures`, a fresh-handle
source standing for `glGenTextures`, and the set of texture identities the
manager's dispose listener is attached to. -/
structure GLTextures where
  table : List (Nat × TextureProperties)
  textures : Int
  nextHandle : Nat
  listeners : List Nat
deriving DecidableEq, Repr

/-- `GLTextures::initTexture` — operating on the table entry of the given
identity (the C++ receives that entry by reference): when not yet
initialised, set `glInit`, subscribe the dispose listener, generate a GPU
handle, and increment the live-texture counter. -/
def GLTextures.initTexture (s : GLTextures) (uuid : Nat) :
    GLTextures × List GLAction :=
  let (tp, table) := getTP s.table uuid
  if tp.glInit then ({ s with table := table }, [])
  else
    let tp' := { tp with glInit := true, glTexture := s.nextHandle }
    ({ s with table := setTP table uuid tp',
              listeners := uuid :: s.listeners,
              nextHandle := s.nextHandle + 1,
              textures := s.textures + 1 },
     [GLAction.genTexture s.nextHandle])

/-- `GLTextures::setTextureParameters` for `GL_TEXTURE_2D` (the 3D /
array-wrap branch is an empty placeholder in the source). -/
def setTextureParameters (textureType : Nat) (t : Texture) : List GLAction :=
  [GLAction.texParameteri textureType GL_TEXTURE_WRAP_S (wrappingToGL t.wrapS),
   GLAction.texParameteri textureType GL_TEXTURE_WRAP_T (wrappingToGL t.wrapT),
   GLAction.texParameteri textureType GL_TEXTURE_MAG_FILTER (filterToGL t.magFilter),
   GLAction.texParameteri textureType GL_TEXTURE_MIN_FILTER (filterToGL t.minFilter)]

/-- `GLTextures::generateMipmap`: emit the GL call and record
`maxMipLevel = log2(max(width, height))` in the entry. -/
def GLTextures.generateMipmapOp (s : GLTextures) (target : Nat) (t : Texture)
    (width height : Nat) : GLTextures × List GLAction :=
  let (tp, table) := getTP s.table t.uuid
  let tp' := { tp with maxMipLevel := (Nat.log2 (max width height) : Int) }
  ({ s with table := setTP table t.uuid tp' }, [GLAction.generateMipmap target])

/-- `GLTextures::uploadTexture`: no-op without an image payload; otherwise
ensure allocation, bind, set unpack alignment and parameters, upload
manual mipmaps (disabling auto-generation) or the single base level,
optionally generate mipmaps, stamp the stored version, and invoke the
update callback if declared.  Returns the new manager state, the (possibly
mutated) texture, and the emitted actions. -/
def GLTextures.uploadTexture (s : GLTextures) (t : Texture) (slot : Nat) :
    GLTextures × Texture × List GLAction :=
  match t.image with
  | none => (s, t, [])
  | some image =>
    let (s₁, aInit) := s.initTexture t.uuid
    let (tp, table₁) := getTP s₁.table t.uuid
    let s₂ := { s₁ with table := table₁ }
    let aBind := [GLAction.activeTexture (GL_TEXTURE0 + slot),
                  GLAction.bindTexture GL_TEXTURE_2D tp.glTexture,
                  GLAction.pixelStorei t.unpackAlignment]
    let glFormat := convert t.format
    let glType := convert t.type
    let glInternalFormat := getInternalFormat glFormat glType
    let aParams := setTextureParameters GL_TEXTURE_2D t
    let (t₁, tp₁, aLevels) :=
      if t.mipmaps.length > 0 then
        (({ t with generateMipmaps := false } : Texture),
         { tp with maxMipLevel := (t.mipmaps.length : Int) - 1 },
         (t.mipmaps.enum.map (fun m =>
            GLAction.texImage2D GL_TEXTURE_2D m.1 glInternalFormat
              m.2.width m.2.height glFormat glType)))
      else
        (t, { tp with maxMipLevel := 0 },
         [GLAction.texImage2D GL_TEXTURE_2D 0 glInternalFormat
            image.width image.height glFormat glType])
    let s₃ := { s₂ with table := setTP s₂.table t.uuid tp₁ }
    let (s₄, aMip) :=
      if textureNeedsGenerateMipmaps t₁ then
        s₃.generateMipmapOp GL_TEXTURE_2D t₁ image.width image.height
      else (s₃, [])
    let (tpEnd, tableEnd) := getTP s₄.table t.uuid
    let s₅ := { s₄ with table := setTP tableEnd t.uuid { tpEnd with version := t.version } }
    let aUpd := if t.onUpdate then [GLAction.onUpdateCall t.uuid] else []
    (s₅, t₁, aInit ++ aBind ++ aParams ++ aLevels ++ aMip ++ aUpd)

/-- `GLTextures::setTexture2D`: upload when the texture was modified
(`version() > 0` and different from the stored version) and an image is
present; when marked for update without an image, emit a diagnostic and
fall through; otherwise (and in the fall-through case) bind the existing
handle to the given unit. -/
def GLTextures.setTexture2D (s : GLTextures) (t : Texture) (slot : Nat) :
    GLTextures × Texture × List GLAction :=
  let (tp, table₁) := getTP s.table t.uuid
  let s₁ := { s with table := table₁ }
  if t.version > 0 ∧ tp.version ≠ t.version then
    match t.image with
    | none =>
      (s₁, t,
       [GLAction.diagnostic "THREE.GLRenderer: Texture marked for update but image is undefined",
        GLAction.activeTexture (GL_TEXTURE0 + slot),
        GLAction.bindTexture GL_TEXTURE_2D tp.glTexture])
    | some _ => s₁.uploadTexture t slot
  else
    (s₁, t,
     [GLAction.activeTexture (GL_TEXTURE0 + slot),
      GLAction.bindTexture GL_TEXTURE_2D tp.glTexture])

/-- `GLTextures::deallocateTexture`: nothing to do unless `glInit`; else
delete the GPU handle and remove the identity's table entry. -/
def GLTextures.deallocateTexture (s : GLTextures) (t : Texture) :
    GLTextures × List GLAction :=
  let (tp, table₁) := getTP s.table t.uuid
  if tp.glInit then
    ({ s with table := removeTP table₁ t.uuid }, [GLAction.deleteTexture tp.glTexture])
  else
    ({ s with table := table₁ }, [])

/-- `GLTextures::TextureEventListener::onEvent` (the dispose notification):
unsubscribe, deallocate, and decrement the live-texture counter. -/
def GLTextures.onTextureDispose (s : GLTextures) (t : Texture) :
    GLTextures × List GLAction :=
  let s₁ := { s with listeners := s.listeners.erase t.uuid }
  let (s₂, a) := s₁.deallocateTexture t
  ({ s₂ with textures := s₂.textures - 1 }, a)

/-! ## Concrete instances used by witnesses and counterexamples -/

/-- A material-properties table with no compiled programs. -/
def noProgs : MaterialPrograms := fun _ => none

/-- An empty render list. -/
def emptyRL : GLRenderList :=
  { renderItemsIndex := 0, renderItems := [], opaques := [], transparent := [] }

/-- A push of a transparent-material draw at depth `z` for object `oid`;
all sort keys other than `z` and the item id are shared. -/
def reqT (oid : Nat) (z : ℚ) : PushReq :=
  { object := ⟨oid, 0⟩, geometry := none, material := ⟨1, 0, true⟩,
    groupOrder := 0, z := z, group := none }

/-- A push of an opaque-material draw at depth `z` for object `oid`. -/
def reqO (oid : Nat) (z : ℚ) : PushReq :=
  { object := ⟨oid, 0⟩, geometry := none, material := ⟨1, 0, false⟩,
    groupOrder := 0, z := z, group := none }

/-- A render list whose pool holds one slot carrying a stale program
pointer, with the high-water mark at 0 (the slot-reuse position). -/
def staleProgRL : GLRenderList :=
  { renderItemsIndex := 0,
    renderItems := [{ (default : RenderItem) with program := some ⟨7⟩ }],
    opaques := [], transparent := [] }

/-- A texture-properties entry with an allocated handle and stored version 1. -/
def tpW : TextureProperties :=
  { glTexture := 9, glInit := true, version := 1, maxMipLevel := 0 }

/-- A texture-manager state owning one allocated texture (identity 5). -/
def sW : GLTextures :=
  { table := [(5, tpW)], textures := 1, nextHandle := 10, listeners := [5] }

/-- A stale texture (version 2 > stored 1) with an image payload. -/
def texStale : Texture :=
  { uuid := 5, version := 2, image := some ⟨4, 4⟩, mipmaps := [],
    format := RGBAFormat, type := UnsignedByteType,
    wrapS := ClampToEdgeWrapping, wrapT := ClampToEdgeWrapping,
    magFilter := LinearFilter, minFilter := LinearFilter,
    generateMipmaps := false, unpackAlignment := 4, onUpdate := false }

/-- An untouched texture (version 0). -/
def texZero : Texture :=
  { texStale with version := 0 }

/-- A stale texture with no image payload. -/
def texNoImg : Texture :=
  { texStale with image := none }

/-! ## Helper lemmas -/

/-- Looking an identity up after `removeTP` of that identity finds nothing. -/
theorem lookupTP_removeTP (table : List (Nat × TextureProperties)) (uuid : Nat) :
    lookupTP (removeTP table uuid) uuid = none := by
  unfold lookupTP removeTP
  rw [List.find?_eq_none.mpr]
  · rfl
  · intro e he
    have := (List.mem_filter.mp he).2
    simpa using this

/-- `getTP` on an unseen identity inserts and returns the default entry. -/
theorem getTP_of_none {table : List (Nat × TextureProperties)} {uuid : Nat}
    (h : lookupTP table uuid = none) :
    getTP table uuid = (defaultTP, (uuid, defaultTP) :: table) := by
  unfold getTP; rw [h]

/-- `getTP` on a present identity returns its entry, leaving the table
unchanged. -/
theorem getTP_of_some {table : List (Nat × TextureProperties)} {uuid : Nat}
    {tp : TextureProperties} (h : lookupTP table uuid = some tp) :
    getTP table uuid = (tp, table) := by
  unfold getTP; rw [h]

/-- `uploadTexture` with an image payload always emits at least one
`texImage2D` action. -/
theorem uploadTexture_uploads (s : GLTextures) (t : Texture) (slot : Nat)
    (h : t.image ≠ none) :
    ((s.uploadTexture t slot).2.2.any GLAction.isTexImage) = true := by
  rcases hI : t.image with _ | img
  · exact absurd hI h
  · rcases hInit : s.initTexture t.uuid with ⟨s₁, aInit⟩
    rcases hTP : getTP s₁.table t.uuid with ⟨tp, table₁⟩
    rcases hmm : t.mipmaps with _ | ⟨m, ms⟩
    · simp [GLTextures.uploadTexture, hI, hInit, hTP, hmm,
            List.any_append, GLAction.isTexImage, GLTextures.generateMipmapOp]
    · rw [List.any_eq_true]
      refine ⟨GLAction.texImage2D GL_TEXTURE_2D 0
        (getInternalFormat (convert t.format) (convert t.type)) m.width m.height
        (convert t.format) (convert t.type), ?_, rfl⟩
      simp only [GLTextures.uploadTexture, hI, hInit, hTP, hmm, List.mem_append]
      have hlen : ((m :: ms).length > 0) := by simp
      rw [if_pos hlen]
      refine Or.inl (Or.inl (Or.inr ?_))
      simp [List.enum_cons]

/-- `uploadTexture` without an image payload is a no-op. -/
theorem uploadTexture_no_image (s : GLTextures) (t : Texture) (slot : Nat)
    (h : t.image = none) : s.uploadTexture t slot = (s, t, []) := by
  simp [GLTextures.uploadTexture, h]

/-- `itemAt` of a freshly appended slot. -/
theorem itemAt_append_length (l : List RenderItem) (a : RenderItem) :
    itemAt (l ++ [a]) l.length = a := by
  simp [itemAt, List.getD_eq_getElem?_getD, List.getElem?_concat_length]

/-- `itemAt` of an overwritten slot. -/
theorem itemAt_set_self (l : List RenderItem) (a : RenderItem) (i : Nat)
    (h : i < l.length) : itemAt (l.set i a) i = a := by
  simp [itemAt, List.getD_eq_getElem?_getD, List.getElem?_set_self, h]

/-- `push` on a state whose high-water mark equals the pool size (the
invariant `init` establishes and every `push` preserves): the fresh item is
appended to the pool and its index to exactly one bucket. -/
theorem push_spec (props : MaterialPrograms) (s : GLRenderList) (r : PushReq)
    (h : s.renderItemsIndex = s.renderItems.length) :
    GLRenderList.push props s r =
      { renderItemsIndex := s.renderItemsIndex + 1,
        renderItems := s.renderItems ++ [builtItem props r],
        opaques := if r.material.transparent then s.opaques
                   else s.opaques ++ [s.renderItems.length],
        transparent := if r.material.transparent then
                         s.transparent ++ [s.renderItems.length]
                       else s.transparent } := by
  unfold GLRenderList.push getNextRenderItem
  rw [if_pos (by omega)]
  cases hb : r.material.transparent <;> simp [hb]

/-- Bucket contents after a run of `push` calls, relative to a state whose
high-water mark equals the pool size: the pool grows by one slot per push,
and each bucket receives exactly the indices of the requests with the
matching transparency flag, in push order. -/
theorem pushMany_buckets (props : MaterialPrograms) :
    ∀ (reqs : List PushReq) (s : GLRenderList) (n : Nat),
      s.renderItems.length = n → s.renderItemsIndex = n →
      (pushMany props s reqs).renderItems.length = n + reqs.length ∧
      (pushMany props s reqs).renderItemsIndex = n + reqs.length ∧
      (pushMany props s reqs).opaques =
        s.opaques ++ ((List.enumFrom n reqs).filter
          (fun p => p.2.material.transparent = false)).map Prod.fst ∧
      (pushMany props s reqs).transparent =
        s.transparent ++ ((List.enumFrom n reqs).filter
          (fun p => p.2.material.transparent = true)).map Prod.fst := by
  intro reqs
  induction reqs with
  | nil => intro s n h1 h2; simp [pushMany, h1, h2]
  | cons r rs ih =>
    intro s n h1 h2
    have hpush := push_spec props s r (by omega)
    have hlen : (GLRenderList.push props s r).renderItems.length = n + 1 := by
      rw [hpush]; simp [h1]
    have hidx : (GLRenderList.push props s r).renderItemsIndex = n + 1 := by
      rw [hpush]; simp [h2]
    obtain ⟨ih1, ih2, ih3, ih4⟩ := ih (GLRenderList.push props s r) (n + 1) hlen hidx
    refine ⟨?_, ?_, ?_, ?_⟩
    · rw [pushMany]; rw [ih1]; simp only [List.length_cons]; omega
    · rw [pushMany]; rw [ih2]; simp only [List.length_cons]; omega
    · rw [pushMany]; rw [ih3, hpush]
      cases hb : r.material.transparent <;>
        simp [List.enumFrom, hb, h1, List.filter_cons]
    · rw [pushMany]; rw [ih4, hpush]
      cases hb : r.material.transparent <;>
        simp [List.enumFrom, hb, h1, List.filter_cons]

/-! ## Claim theorems: render list -/

/-- C1 (the code contradicts the claim): `reversePainterSortStable` is
identical to `painterSortStable` — the `z` comparison direction is NOT
reversed — so three equal-keyed items at depths 1, 5, 3 pushed as
transparent sort to z-order [1, 3, 5] (front-to-back), not the claimed
[5, 3, 1]; the same depths pushed as opaque also sort to [1, 3, 5]. -/
theorem c1_transparent_sorts_front_to_back :
    reversePainterSortStable = painterSortStable ∧
    (let s := pushMany noProgs (GLRenderList.init emptyRL) [reqT 10 1, reqT 11 5, reqT 12 3]
     bucketZs s.sort.renderItems s.sort.transparent = [1, 3, 5]) ∧
    (let s := pushMany noProgs (GLRenderList.init emptyRL) [reqO 10 1, reqO 11 5, reqO 12 3]
     bucketZs s.sort.renderItems s.sort.opaques = [1, 3, 5]) :=
  ⟨rfl, by decide, by decide⟩

/-- C2 (the code contradicts the claim): `init()` empties the buckets and
resets the high-water mark as claimed, but it also clears the pool
(`renderItems.clear()`), rather than leaving the pool storage unchanged. -/
theorem c2_init_clears_pool :
    (pushMany noProgs (GLRenderList.init emptyRL) [reqO 10 1]).renderItems.length = 1 ∧
    (pushMany noProgs (GLRenderList.init emptyRL) [reqO 10 1]).init.renderItems = [] ∧
    (pushMany noProgs (GLRenderList.init emptyRL) [reqO 10 1]).init.renderItemsIndex = 0 ∧
    (pushMany noProgs (GLRenderList.init emptyRL) [reqO 10 1]).init.opaques = [] ∧
    (pushMany noProgs (GLRenderList.init emptyRL) [reqO 10 1]).init.transparent = [] := by
  decide

/-- C3 (the code contradicts the claim): after a frame of P = 2 pushes and
`finish()`, then `init()` and T = 1 push, `finish()` leaves NO cleared
slot: because `init()` cleared the pool, the pool holds exactly the one
item of the second frame (id 12) and no slot carries id = -1, where the
claim requires P − T = 1 cleared slot at index 1. -/
theorem c3_finish_leaves_no_cleared_slots :
    ((pushMany noProgs
        (pushMany noProgs (GLRenderList.init emptyRL) [reqO 10 1, reqO 11 2]
          ).finish.init
        [reqO 12 3]).finish.renderItems.map RenderItem.id) = [12] := by
  decide

/-- C4 counterexample: in the slot-reuse branch, when the material has no
compiled program, the returned item RETAINS the previous occupant's
program pointer instead of the (null) lookup result. -/
theorem c4_counterexample :
    noProgs (reqO 10 1).material.uuid = none ∧
    (itemAt (getNextRenderItem noProgs staleProgRL (reqO 10 1)).1.renderItems
      (getNextRenderItem noProgs staleProgRL (reqO 10 1)).2).program = some ⟨7⟩ := by
  decide

/-- C4 amended: every `getNextRenderItem` call returns an item whose `id`
is the object's identity and whose `renderOrder` is the object's own
field; `program` is the material's GPU-linkage lookup in the fresh-append
branch, while in the slot-reuse branch it is overwritten by the lookup
only when a compiled program exists and otherwise keeps the previous
occupant's value. -/
theorem c4_amended (props : MaterialPrograms) (s : GLRenderList) (r : PushReq) :
    (itemAt (getNextRenderItem props s r).1.renderItems
        (getNextRenderItem props s r).2).id = (r.object.id : Int) ∧
    (itemAt (getNextRenderItem props s r).1.renderItems
        (getNextRenderItem props s r).2).renderOrder = r.object.renderOrder ∧
    (itemAt (getNextRenderItem props s r).1.renderItems
        (getNextRenderItem props s r).2).program =
      (match props r.material.uuid with
       | some p => some p
       | none =>
         if s.renderItemsIndex < s.renderItems.length then
           (itemAt s.renderItems s.renderItemsIndex).program
         else none) := by
  by_cases h : s.renderItemsIndex ≥ s.renderItems.length
  · have hne : ¬ s.renderItemsIndex < s.renderItems.length := by omega
    simp only [getNextRenderItem, if_pos h]
    rw [itemAt_append_length]
    refine ⟨rfl, rfl, ?_⟩
    cases hp : props r.material.uuid <;> simp [builtItem, hp, hne]
  · have hlt : s.renderItemsIndex < s.renderItems.length := by omega
    simp only [getNextRenderItem, if_neg h]
    rw [itemAt_set_self _ _ _ hlt]
    refine ⟨rfl, rfl, ?_⟩
    cases hp : props r.material.uuid <;> simp [builtItem, hp, hlt]

/-- C7: after `init()` and any N pushes, the bucket sizes sum to N, each
pushed item lands in `transparent` exactly when its material's transparent
flag is set (and in `opaque` otherwise, in push order), and no item
reference appears in both buckets. -/
theorem c7_push_partition (props : MaterialPrograms) (s0 : GLRenderList)
    (reqs : List PushReq) :
    (pushMany props (GLRenderList.init s0) reqs).opaques.length +
      (pushMany props (GLRenderList.init s0) reqs).transparent.length = reqs.length ∧
    (pushMany props (GLRenderList.init s0) reqs).opaques =
      ((List.enumFrom 0 reqs).filter
        (fun p => p.2.material.transparent = false)).map Prod.fst ∧
    (pushMany props (GLRenderList.init s0) reqs).transparent =
      ((List.enumFrom 0 reqs).filter
        (fun p => p.2.material.transparent = true)).map Prod.fst ∧
    (pushMany props (GLRenderList.init s0) reqs).opaques ∩
      (pushMany props (GLRenderList.init s0) reqs).transparent = [] := by
  obtain ⟨h1, h2, h3, h4⟩ :=
    pushMany_buckets props reqs (GLRenderList.init s0) 0 rfl rfl
  simp only [show (GLRenderList.init s0).opaques = [] from rfl,
             show (GLRenderList.init s0).transparent = [] from rfl,
             List.nil_append] at h3 h4
  refine ⟨?_, h3, h4, ?_⟩
  · rw [h3, h4]
    simp only [List.length_map]
    have hsplit := List.length_eq_length_filter_add
      (l := List.enumFrom 0 reqs) (fun p => p.2.material.transparent = true)
    have hlen : (List.enumFrom 0 reqs).length = reqs.length := by
      simp [List.enumFrom_length]
    have hneg : ((List.enumFrom 0 reqs).filter
          (fun p => !(decide (p.2.material.transparent = true)))) =
        ((List.enumFrom 0 reqs).filter
          (fun p => p.2.material.transparent = false)) := by
      apply List.filter_congr
      intro p _
      cases p.2.material.transparent <;> rfl
    rw [hneg] at hsplit
    omega
  · rw [h3, h4, List.inter_eq_nil_iff_disjoint]
    intro i hiO hiT
    obtain ⟨p, hpF, hp1⟩ := List.mem_map.mp hiO
    obtain ⟨q, hqF, hq1⟩ := List.mem_map.mp hiT
    obtain ⟨pi, pr⟩ := p
    obtain ⟨qi, qr⟩ := q
    simp only at hp1 hq1
    subst hp1; subst hq1
    have hpE := (List.mem_filter.mp hpF).1
    have hpP := (List.mem_filter.mp hpF).2
    have hqE := (List.mem_filter.mp hqF).1
    have hqP := (List.mem_filter.mp hqF).2
    have hpg := (List.mk_mem_enumFrom_iff_le_and_getElem?_sub.mp hpE).2
    have hqg := (List.mk_mem_enumFrom_iff_le_and_getElem?_sub.mp hqE).2
    simp only [Nat.sub_zero] at hpg hqg
    rw [hpg] at hqg
    have hpq : pr = qr := Option.some.inj hqg
    subst hpq
    simp only [decide_eq_true_eq] at hpP hqP
    rw [hpP] at hqP
    cases hqP

/-- Filtering an `orderedInsert` by a predicate all of whose holders are
`r`-below the inserted element (when it holds of it): the inserted element
lands in front of every predicate-holder. -/
theorem filter_orderedInsert {α : Type} (r : α → α → Prop) [DecidableRel r]
    (p : α → Bool) (x : α) :
    ∀ l : List α, (p x = true → ∀ b ∈ l, p b = true → r x b) →
      (l.orderedInsert r x).filter p =
        if p x = true then x :: l.filter p else l.filter p := by
  intro l
  induction l with
  | nil =>
    intro _
    cases hp : p x <;> simp [List.orderedInsert, List.filter_cons, hp]
  | cons y ys ih =>
    intro H
    rw [List.orderedInsert]
    by_cases hr : r x y
    · rw [if_pos hr]
      cases hp : p x <;> cases hpy : p y <;>
        simp [List.filter_cons, hp, hpy]
    · rw [if_neg hr]
      have ih' := ih (fun hpx b hb hpb => H hpx b (List.mem_cons_of_mem y hb) hpb)
      cases hp : p x with
      | true =>
        cases hpy : p y with
        | true => exact absurd (H hp y (List.mem_cons_self y ys) hpy) hr
        | false =>
          rw [if_pos hp] at ih'
          simp [List.filter_cons, hpy, hp, ih']
      | false =>
        rw [if_neg (by simp [hp])] at ih'
        cases hpy : p y <;> simp [List.filter_cons, hpy, hp, ih']

/-- Stability of insertion sort, filter form: if all elements satisfying
`p` are mutually `r`-related (in both directions, as equivalents are),
sorting does not change the subsequence of `p`-holders. -/
theorem filter_insertionSort {α : Type} (r : α → α → Prop) [DecidableRel r]
    (p : α → Bool) :
    ∀ l : List α, (∀ a ∈ l, ∀ b ∈ l, p a = true → p b = true → r a b) →
      (l.insertionSort r).filter p = l.filter p := by
  intro l
  induction l with
  | nil => intro _; rfl
  | cons x xs ih =>
    intro H
    rw [List.insertionSort]
    rw [filter_orderedInsert r p x (xs.insertionSort r)
      (fun hpx b hb hpb => H x (List.mem_cons_self x xs) b
        (List.mem_cons_of_mem x ((List.mem_insertionSort r).mp hb)) hpx hpb)]
    have ih' := ih (fun a ha b hb hpa hpb =>
      H a (List.mem_cons_of_mem x ha) b (List.mem_cons_of_mem x hb) hpa hpb)
    cases hp : p x with
    | true => rw [if_pos rfl, ih']; simp [List.filter_cons, hp]
    | false => rw [if_neg (by simp), ih']; simp [List.filter_cons, hp]

/-- The two comparators of GLRenderLists.cpp have identical bodies. -/
theorem rev_eq_painter : reversePainterSortStable = painterSortStable := rfl

/-- The program-identity guard is false when the program identities agree. -/
theorem progIdsDiffer_eq_false {a b : RenderItem}
    (h : a.program.map ShaderProgram.id = b.program.map ShaderProgram.id) :
    progIdsDiffer a b = false := by
  unfold progIdsDiffer
  cases ha : a.program with
  | none => cases b.program <;> rfl
  | some pa =>
    cases hb : b.program with
    | none => rfl
    | some pb =>
      rw [ha, hb] at h
      simp only [Option.map_some'] at h
      have : pa.id = pb.id := Option.some.inj h
      simp [this]

/-- Two items with equal full key (all six comparator fields) are never
strictly ordered by the comparator. -/
theorem painter_eq_false_of_fullKey_eq {a b : RenderItem}
    (h : fullKey a = fullKey b) : painterSortStable a b = false := by
  unfold fullKey at h
  simp only [Prod.mk.injEq] at h
  obtain ⟨h1, h2, h3, h4, h5, h6⟩ := h
  unfold painterSortStable
  rw [progIdsDiffer_eq_false h3]
  simp [h1, h2, h4, h5, h6]

/-- Sorting an already-sorted bucket is the identity. -/
theorem sortBucket_of_sorted (pool : List RenderItem)
    (comp : RenderItem → RenderItem → Bool) (bucket : List Nat)
    (h : List.Sorted (bucketLE pool comp) bucket) :
    sortBucket pool comp bucket = bucket := by
  unfold sortBucket
  split
  · exact h.insertionSort_eq
  · rfl

/-- The filter-stability of a bucket sort, for a fixed full key `k`:
key-`k` items keep their relative order. -/
theorem sortBucket_filter_stable (pool : List RenderItem)
    (comp : RenderItem → RenderItem → Bool)
    (hcomp : ∀ x y : RenderItem, fullKey x = fullKey y → comp x y = false)
    (bucket : List Nat) (k : Int × Int × Option Int × Int × ℚ × Int) :
    (sortBucket pool comp bucket).filter (fun i => fullKey (itemAt pool i) = k) =
      bucket.filter (fun i => fullKey (itemAt pool i) = k) := by
  unfold sortBucket
  split
  · apply filter_insertionSort
    intro i _ j _ hpi hpj
    simp only [decide_eq_true_eq] at hpi hpj
    exact hcomp (itemAt pool j) (itemAt pool i) (hpj.trans hpi.symm)
  · rfl

/-- C8 counterexample: two items identical in groupOrder, renderOrder,
program, material and z but pushed with ids 7 then 3 do NOT retain their
push order — the comparator's final tie-break on item id reorders them. -/
theorem c8_counterexample :
    (let s := pushMany noProgs (GLRenderList.init emptyRL) [reqO 7 2, reqO 3 2]
     (itemAt s.renderItems 0).groupOrder = (itemAt s.renderItems 1).groupOrder ∧
     (itemAt s.renderItems 0).renderOrder = (itemAt s.renderItems 1).renderOrder ∧
     (itemAt s.renderItems 0).program = (itemAt s.renderItems 1).program ∧
     (itemAt s.renderItems 0).material = (itemAt s.renderItems 1).material ∧
     (itemAt s.renderItems 0).z = (itemAt s.renderItems 1).z ∧
     s.opaques = [0, 1] ∧ (GLRenderList.sort s).opaques = [1, 0]) := by
  decide

/-- C8 amended: `sort()` of already-sorted buckets is the identity
(idempotence); two items with identical groupOrder, renderOrder, program
identity, material identity, z AND item id retain their relative push
order (filter form, for both comparators); and a bucket of 0 or 1
elements is left unchanged. -/
theorem c8_sort_amended :
    (∀ s : GLRenderList,
        List.Sorted (bucketLE s.renderItems painterSortStable) s.opaques →
        List.Sorted (bucketLE s.renderItems reversePainterSortStable) s.transparent →
        GLRenderList.sort s = s) ∧
    (∀ (pool : List RenderItem) (bucket : List Nat)
        (k : Int × Int × Option Int × Int × ℚ × Int),
        (sortBucket pool painterSortStable bucket).filter
            (fun i => fullKey (itemAt pool i) = k) =
          bucket.filter (fun i => fullKey (itemAt pool i) = k) ∧
        (sortBucket pool reversePainterSortStable bucket).filter
            (fun i => fullKey (itemAt pool i) = k) =
          bucket.filter (fun i => fullKey (itemAt pool i) = k)) ∧
    (∀ (pool : List RenderItem) (comp : RenderItem → RenderItem → Bool) (i : Nat),
        sortBucket pool comp [] = [] ∧ sortBucket pool comp [i] = [i]) := by
  refine ⟨?_, ?_, ?_⟩
  · intro s h1 h2
    unfold GLRenderList.sort
    rw [sortBucket_of_sorted _ _ _ h1, sortBucket_of_sorted _ _ _ h2]
  · intro pool bucket k
    constructor
    · exact sortBucket_filter_stable pool painterSortStable
        (fun _ _ h => painter_eq_false_of_fullKey_eq h) bucket k
    · rw [rev_eq_painter]
      exact sortBucket_filter_stable pool painterSortStable
        (fun _ _ h => painter_eq_false_of_fullKey_eq h) bucket k
  · intro pool comp i
    exact ⟨rfl, rfl⟩

/-- C8 witness: the idempotence clause of `c8_sort_amended` applied to a
concrete sorted two-element frame. -/
theorem c8_witness :
    GLRenderList.sort (pushMany noProgs (GLRenderList.init emptyRL) [reqO 3 1, reqO 7 2]) =
      pushMany noProgs (GLRenderList.init emptyRL) [reqO 3 1, reqO 7 2] :=
  c8_sort_amended.1 _ (by decide) (by decide)

/-- `push` on an arbitrary state: the high-water mark advances by exactly
one and exactly one bucket receives exactly one new reference. -/
theorem push_op_deltas (props : MaterialPrograms) (s : GLRenderList) (r : PushReq) :
    (GLRenderList.push props s r).renderItemsIndex = s.renderItemsIndex + 1 ∧
    (if r.material.transparent = true then
       (GLRenderList.push props s r).transparent.length = s.transparent.length + 1 ∧
       (GLRenderList.push props s r).opaques = s.opaques
     else
       (GLRenderList.push props s r).opaques.length = s.opaques.length + 1 ∧
       (GLRenderList.push props s r).transparent = s.transparent) := by
  unfold GLRenderList.push getNextRenderItem
  by_cases h : s.renderItemsIndex ≥ s.renderItems.length <;>
    cases hb : r.material.transparent <;> simp [h, hb]

/-- `unshift` on an arbitrary state: the high-water mark advances by
exactly one and exactly one bucket receives exactly one new reference. -/
theorem unshift_op_deltas (props : MaterialPrograms) (s : GLRenderList) (r : PushReq) :
    (GLRenderList.unshift props s r).renderItemsIndex = s.renderItemsIndex + 1 ∧
    (if r.material.transparent = true then
       (GLRenderList.unshift props s r).transparent.length = s.transparent.length + 1 ∧
       (GLRenderList.unshift props s r).opaques = s.opaques
     else
       (GLRenderList.unshift props s r).opaques.length = s.opaques.length + 1 ∧
       (GLRenderList.unshift props s r).transparent = s.transparent) := by
  unfold GLRenderList.unshift getNextRenderItem
  by_cases h : s.renderItemsIndex ≥ s.renderItems.length <;>
    cases hb : r.material.transparent <;> simp [h, hb]

/-- `sort` changes neither the high-water mark, nor the pool, nor the
length of either bucket. -/
theorem sort_op_deltas (s : GLRenderList) :
    (GLRenderList.sort s).renderItemsIndex = s.renderItemsIndex ∧
    (GLRenderList.sort s).renderItems = s.renderItems ∧
    (GLRenderList.sort s).opaques.length = s.opaques.length ∧
    (GLRenderList.sort s).transparent.length = s.transparent.length := by
  refine ⟨rfl, rfl, ?_, ?_⟩ <;>
    · simp only [GLRenderList.sort, sortBucket]
      split <;> simp [List.length_insertionSort]

/-- `finish` changes neither the high-water mark nor either bucket. -/
theorem finish_op_deltas (s : GLRenderList) :
    (GLRenderList.finish s).renderItemsIndex = s.renderItemsIndex ∧
    (GLRenderList.finish s).opaques = s.opaques ∧
    (GLRenderList.finish s).transparent = s.transparent :=
  ⟨rfl, rfl, rfl⟩

/-- Any operation preserves `renderItemsIndex = |opaque| + |transparent|`. -/
theorem applyOps_inv (props : MaterialPrograms) :
    ∀ (ops : List RLOp) (s : GLRenderList),
      s.renderItemsIndex = s.opaques.length + s.transparent.length →
      (applyOps props s ops).renderItemsIndex =
        (applyOps props s ops).opaques.length +
          (applyOps props s ops).transparent.length := by
  intro ops
  induction ops with
  | nil => intro s h; exact h
  | cons o os ih =>
    intro s h
    apply ih
    cases o with
    | push r =>
      obtain ⟨hidx, hbkt⟩ := push_op_deltas props s r
      by_cases hb : r.material.transparent = true
      · rw [if_pos hb] at hbkt
        simp only [applyOp, hidx, hbkt.1, hbkt.2]; omega
      · rw [if_neg hb] at hbkt
        simp only [applyOp, hidx, hbkt.1, hbkt.2]; omega
    | unshift r =>
      obtain ⟨hidx, hbkt⟩ := unshift_op_deltas props s r
      by_cases hb : r.material.transparent = true
      · rw [if_pos hb] at hbkt
        simp only [applyOp, hidx, hbkt.1, hbkt.2]; omega
      · rw [if_neg hb] at hbkt
        simp only [applyOp, hidx, hbkt.1, hbkt.2]; omega
    | sort =>
      obtain ⟨h1, _, h3, h4⟩ := sort_op_deltas s
      simp only [applyOp, h1, h3, h4]; omega
    | finish =>
      obtain ⟨h1, h2, h3⟩ := finish_op_deltas s
      simp only [applyOp, h1, h2, h3]; omega

/-- C10: from `init()`, after any sequence of push/unshift/sort/finish
operations, `renderItemsIndex = |opaque| + |transparent|`; each
push/unshift adds exactly one reference to exactly one bucket and advances
the high-water mark by exactly one, while sort and finish change neither
the mark nor the bucket sizes. -/
theorem c10_index_invariant (props : MaterialPrograms) :
    (∀ (s0 : GLRenderList) (ops : List RLOp),
      (applyOps props (GLRenderList.init s0) ops).renderItemsIndex =
        (applyOps props (GLRenderList.init s0) ops).opaques.length +
          (applyOps props (GLRenderList.init s0) ops).transparent.length) ∧
    (∀ (s : GLRenderList) (r : PushReq),
      (GLRenderList.push props s r).renderItemsIndex = s.renderItemsIndex + 1 ∧
      (if r.material.transparent = true then
         (GLRenderList.push props s r).transparent.length = s.transparent.length + 1 ∧
         (GLRenderList.push props s r).opaques = s.opaques
       else
         (GLRenderList.push props s r).opaques.length = s.opaques.length + 1 ∧
         (GLRenderList.push props s r).transparent = s.transparent)) ∧
    (∀ (s : GLRenderList) (r : PushReq),
      (GLRenderList.unshift props s r).renderItemsIndex = s.renderItemsIndex + 1 ∧
      (if r.material.transparent = true then
         (GLRenderList.unshift props s r).transparent.length = s.transparent.length + 1 ∧
         (GLRenderList.unshift props s r).opaques = s.opaques
       else
         (GLRenderList.unshift props s r).opaques.length = s.opaques.length + 1 ∧
         (GLRenderList.unshift props s r).transparent = s.transparent)) ∧
    (∀ s : GLRenderList,
      (GLRenderList.sort s).renderItemsIndex = s.renderItemsIndex ∧
      (GLRenderList.sort s).opaques.length = s.opaques.length ∧
      (GLRenderList.sort s).transparent.length = s.transparent.length) ∧
    (∀ s : GLRenderList,
      (GLRenderList.finish s).renderItemsIndex = s.renderItemsIndex ∧
      (GLRenderList.finish s).opaques = s.opaques ∧
      (GLRenderList.finish s).transparent = s.transparent) :=
  ⟨fun s0 ops => applyOps_inv props ops (GLRenderList.init s0) rfl,
   push_op_deltas props,
   unshift_op_deltas props,
   fun s => ⟨(sort_op_deltas s).1, (sort_op_deltas s).2.2.1, (sort_op_deltas s).2.2.2⟩,
   finish_op_deltas⟩

/-! ## Claim theorems: texture manager -/

/-- C5: `setTexture2D` uploads iff the texture's content version is
positive, exceeds the stored version (given that the stored version never
runs ahead of the content version), and an image payload is present; a
texture with `version() == 0` is never uploaded; when the version is stale
but no image exists, a diagnostic is emitted and the call falls through to
binding the existing GPU handle to the given slot, raising no exception. -/
theorem c5_setTexture2D_upload_policy (s : GLTextures) (t : Texture) (slot : Nat) :
    ((getTP s.table t.uuid).1.version ≤ t.version →
      (((s.setTexture2D t slot).2.2.any GLAction.isTexImage) = true ↔
        (0 < t.version ∧ (getTP s.table t.uuid).1.version < t.version ∧ t.image ≠ none))) ∧
    (t.version = 0 → ((s.setTexture2D t slot).2.2.any GLAction.isTexImage) = false) ∧
    ((0 < t.version ∧ (getTP s.table t.uuid).1.version ≠ t.version ∧ t.image = none) →
      (s.setTexture2D t slot).2.2 =
        [GLAction.diagnostic "THREE.GLRenderer: Texture marked for update but image is undefined",
         GLAction.activeTexture (GL_TEXTURE0 + slot),
         GLAction.bindTexture GL_TEXTURE_2D (getTP s.table t.uuid).1.glTexture]) := by
  rcases hTP : getTP s.table t.uuid with ⟨tp, table₁⟩
  have htpv : (getTP s.table t.uuid).1 = tp := by rw [hTP]
  by_cases hv : t.version > 0 ∧ tp.version ≠ t.version
  · rcases hI : t.image with _ | img
    · refine ⟨fun hmono => ?_, fun hz => ?_, fun _ => ?_⟩
      · simp [GLTextures.setTexture2D, hTP, hv, hI, GLAction.isTexImage]
      · exact absurd hz (by omega)
      · simp [GLTextures.setTexture2D, hTP, hv, hI]
    · refine ⟨fun hmono => ?_, fun hz => ?_, fun hc => ?_⟩
      · have hup : ((s.setTexture2D t slot).2.2.any GLAction.isTexImage) = true := by
          have := uploadTexture_uploads { s with table := table₁ } t slot (by simp [hI])
          simpa [GLTextures.setTexture2D, hTP, hv, hI] using this
        simp only [hup, true_iff]
        have hm2 : tp.version ≤ t.version := hmono
        exact ⟨hv.1, by omega, by simp [hI]⟩
      · exact absurd hz (by omega)
      · exact absurd hc.2.2 (by simp [hI])
  · refine ⟨fun hmono => ?_, fun hz => ?_, fun hc => ?_⟩
    · have heff : (s.setTexture2D t slot).2.2 =
          [GLAction.activeTexture (GL_TEXTURE0 + slot),
           GLAction.bindTexture GL_TEXTURE_2D tp.glTexture] := by
        simp [GLTextures.setTexture2D, hTP, hv]
      rw [heff]
      simp only [List.any_cons, List.any_nil, GLAction.isTexImage]
      constructor
      · intro hfalse; simp at hfalse
      · rintro ⟨h1, h2, _⟩
        have h2' : tp.version < t.version := h2
        exact absurd ⟨h1, by omega⟩ hv
    · have heff : (s.setTexture2D t slot).2.2 =
          [GLAction.activeTexture (GL_TEXTURE0 + slot),
           GLAction.bindTexture GL_TEXTURE_2D tp.glTexture] := by
        simp [GLTextures.setTexture2D, hTP, hv]
      rw [heff]
      simp [GLAction.isTexImage]
    · exact absurd ⟨hc.1, hc.2.1⟩ hv

/-- C5 witness: the three parts of `c5_setTexture2D_upload_policy`
instantiated — a stale texture with an image uploads, a version-0 texture
does not, and a stale texture without an image falls through to the
diagnostic-plus-bind action sequence. -/
theorem c5_witness :
    ((sW.setTexture2D texStale 0).2.2.any GLAction.isTexImage) = true ∧
    ((sW.setTexture2D texZero 0).2.2.any GLAction.isTexImage) = false ∧
    (sW.setTexture2D texNoImg 0).2.2 =
      [GLAction.diagnostic "THREE.GLRenderer: Texture marked for update but image is undefined",
       GLAction.activeTexture (GL_TEXTURE0 + 0),
       GLAction.bindTexture GL_TEXTURE_2D (getTP sW.table texNoImg.uuid).1.glTexture] :=
  ⟨((c5_setTexture2D_upload_policy sW texStale 0).1 (by decide)).mpr
      ⟨by decide, by decide, by decide⟩,
   (c5_setTexture2D_upload_policy sW texZero 0).2.1 (by decide),
   (c5_setTexture2D_upload_policy sW texNoImg 0).2.2 ⟨by decide, by decide, by decide⟩⟩

/-- C6: the internal-format derivation maps exactly the 9 pairs
{RED,RGB,RGBA} × {FLOAT,HALF_FLOAT,UNSIGNED_BYTE} to sized formats, with
(RGBA, UNSIGNED_BYTE) ↦ GL_RGBA8 and (RED, FLOAT) ↦ GL_R32F, and returns
the input format unchanged for every pair outside those 9. -/
theorem c6_getInternalFormat_table :
    getInternalFormat GL_RED GL_FLOAT = GL_R32F ∧
    getInternalFormat GL_RED GL_HALF_FLOAT = GL_R16F ∧
    getInternalFormat GL_RED GL_UNSIGNED_BYTE = GL_R8 ∧
    getInternalFormat GL_RGB GL_FLOAT = GL_RGB32F ∧
    getInternalFormat GL_RGB GL_HALF_FLOAT = GL_RGB16F ∧
    getInternalFormat GL_RGB GL_UNSIGNED_BYTE = GL_RGB8 ∧
    getInternalFormat GL_RGBA GL_FLOAT = GL_RGBA32F ∧
    getInternalFormat GL_RGBA GL_HALF_FLOAT = GL_RGBA16F ∧
    getInternalFormat GL_RGBA GL_UNSIGNED_BYTE = GL_RGBA8 ∧
    ∀ f ty : Nat,
      (f ≠ GL_RED ∧ f ≠ GL_RGB ∧ f ≠ GL_RGBA) ∨
      (ty ≠ GL_FLOAT ∧ ty ≠ GL_HALF_FLOAT ∧ ty ≠ GL_UNSIGNED_BYTE) →
      getInternalFormat f ty = f := by
  refine ⟨by decide, by decide, by decide, by decide, by decide, by decide,
          by decide, by decide, by decide, ?_⟩
  rintro f ty (⟨h1, h2, h3⟩ | ⟨h1, h2, h3⟩) <;>
    simp [getInternalFormat, internalFormatRed, internalFormatRgb,
          internalFormatRgba, h1, h2, h3]

/-- C6 witness: the passthrough clause of `c6_getInternalFormat_table`
instantiated at a pair outside the 9-entry table. -/
theorem c6_witness : getInternalFormat 9999 GL_FLOAT = 9999 :=
  c6_getInternalFormat_table.2.2.2.2.2.2.2.2.2 9999 GL_FLOAT (Or.inl (by decide))

/-- C9: handling the dispose notification for a texture whose GPU state is
allocated decrements the live-texture counter by exactly 1, deletes the
GPU handle, removes the identity's resource-table entry, and a subsequent
`initTexture` on the same identity behaves as a first-time allocation — a
fresh `glInit` transition generating a new handle and re-incrementing the
counter. -/
theorem c9_dispose_releases (s : GLTextures) (t : Texture) (tp : TextureProperties)
    (hl : lookupTP s.table t.uuid = some tp) (hInit : tp.glInit = true) :
    (s.onTextureDispose t).1.textures = s.textures - 1 ∧
    (s.onTextureDispose t).2 = [GLAction.deleteTexture tp.glTexture] ∧
    lookupTP (s.onTextureDispose t).1.table t.uuid = none ∧
    (getTP (s.onTextureDispose t).1.table t.uuid).1.glInit = false ∧
    ((s.onTextureDispose t).1.initTexture t.uuid).2 =
      [GLAction.genTexture (s.onTextureDispose t).1.nextHandle] ∧
    ((s.onTextureDispose t).1.initTexture t.uuid).1.textures =
      (s.onTextureDispose t).1.textures + 1 ∧
    lookupTP ((s.onTextureDispose t).1.initTexture t.uuid).1.table t.uuid =
      some { defaultTP with
               glInit := true,
               glTexture := (s.onTextureDispose t).1.nextHandle } := by
  have hdisp : s.onTextureDispose t =
      ({ s with listeners := s.listeners.erase t.uuid,
                table := removeTP s.table t.uuid,
                textures := s.textures - 1 },
       [GLAction.deleteTexture tp.glTexture]) := by
    simp [GLTextures.onTextureDispose, GLTextures.deallocateTexture, getTP, hl, hInit]
  have hnone : lookupTP (removeTP s.table t.uuid) t.uuid = none :=
    lookupTP_removeTP s.table t.uuid
  refine ⟨by rw [hdisp], by rw [hdisp], by rw [hdisp]; exact hnone, ?_, ?_, ?_, ?_⟩
  · rw [hdisp]; rw [getTP_of_none hnone]; rfl
  · rw [hdisp]
    simp [GLTextures.initTexture, getTP_of_none hnone, defaultTP]
  · rw [hdisp]
    simp [GLTextures.initTexture, getTP_of_none hnone, defaultTP]
  · rw [hdisp]
    simp [GLTextures.initTexture, getTP_of_none hnone, defaultTP, setTP, lookupTP]

/-- C9 witness: `c9_dispose_releases` instantiated at a one-texture
manager state. -/
theorem c9_witness :
    (sW.onTextureDispose texStale).1.textures = sW.textures - 1 ∧
    (sW.onTextureDispose texStale).2 = [GLAction.deleteTexture tpW.glTexture] ∧
    lookupTP (sW.onTextureDispose texStale).1.table texStale.uuid = none ∧
    (getTP (sW.onTextureDispose texStale).1.table texStale.uuid).1.glInit = false ∧
    ((sW.onTextureDispose texStale).1.initTexture texStale.uuid).2 =
      [GLAction.genTexture (sW.onTextureDispose texStale).1.nextHandle] ∧
    ((sW.onTextureDispose texStale).1.initTexture texStale.uuid).1.textures =
      (sW.onTextureDispose texStale).1.textures + 1 ∧
    lookupTP ((sW.onTextureDispose texStale).1.initTexture texStale.uuid).1.table texStale.uuid =
      some { defaultTP with
               glInit := true,
               glTexture := (sW.onTextureDispose texStale).1.nextHandle } :=
  c9_dispose_releases sW texStale tpW (by decide) (by decide)

end Threepp
